import Mathlib

/-!
Verification development for the statistics microservice (stats-microservice/app.py).

The service accepts a chi-square-family hypothesis-test request, dispatches to one
of four computors (goodness-of-fit, independence, homogeneity, Fisher exact),
and returns a result record whose non-finite numeric fields are rendered as null.

Modelling conventions:
* Python floats are modelled by `F`, a tagged type of rational numbers plus the
  three non-finite values; arithmetic on observed tables is exact over the rationals.
* JSON-serializable objects are modelled by the mutual inductive `JVal`.
* Python exceptions are modelled by `PyError` and fallible code returns `Except`.
* The SciPy statistical routines are modelled as follows: the expected table,
  degrees of freedom, Pearson statistic and the (clamped) Yates continuity
  correction of scipy.stats.chi2_contingency are modelled exactly over the
  rationals, while the tail-probability lookup (the chi-square survival function)
  is an abstract parameter, as are scipy.stats.chisquare and
  scipy.stats.fisher_exact where only their output shape matters to a claim.
* Python float literals such as 0.05 are modelled by the exact rationals they
  denote in the source text.
-/

/-- Model of a Python float: a finite rational or one of the non-finite values. -/
inductive F where
  | fin (q : ℚ)
  | nan
  | inf
  | ninf
deriving DecidableEq

/-- math.isnan or math.isinf is false exactly on finite floats. -/
def F.isFinite : F → Bool
  | .fin _ => true
  | _ => false

/-- Python float comparison x < y; any comparison with NaN is false. -/
def F.lt : F → F → Bool
  | .fin a, .fin b => decide (a < b)
  | .fin _, .inf => true
  | .ninf, .fin _ => true
  | .ninf, .inf => true
  | _, _ => false

/-- Model of safe_float_conversion (app.py lines 68-74) on numeric input:
NaN and infinities become None (the absent marker), finite floats pass through. -/
def safe_float_conversion : F → Option ℚ
  | .fin q => some q
  | _ => none

/-- Fixed head of the significant narrative in get_interpretation. -/
def sigHead : String :=
  "The result is statistically significant (p < 0.05). Therefore, we reject the null hypothesis. "

/-- Fixed head of the not-significant narrative in get_interpretation. -/
def nonsigHead : String :=
  "The result is not statistically significant (p >= 0.05). Therefore, we fail to reject the null hypothesis. "

/-- Model of get_interpretation (app.py lines 59-66): compares the p-value with
the fixed threshold 0.05 and builds one of two narrative strings, appending the
supplied conclusion and notes. -/
def get_interpretation (p_value : F) (_subtype : String)
    (positive_conclusion negative_conclusion : String) (test_notes : String) : String :=
  if F.lt p_value (F.fin (1/20)) then
    sigHead ++ positive_conclusion ++ " " ++ test_notes
  else
    nonsigHead ++ negative_conclusion ++ " " ++ test_notes

mutual

/-- Model of a JSON-serializable Python object: floats, ints, strings, booleans,
None, lists and string-keyed dicts. -/
inductive JVal where
  | num (x : F)
  | int (n : ℤ)
  | str (s : String)
  | bool (b : Bool)
  | null
  | arr (a : JList)
  | obj (o : JFields)

/-- A Python list of JSON-serializable values. -/
inductive JList where
  | nil
  | cons (hd : JVal) (tl : JList)

/-- The key-value items of a Python dict, in iteration order. -/
inductive JFields where
  | nil
  | cons (k : String) (v : JVal) (tl : JFields)

end

/-- The isinstance(v, float) and (isnan or isinf) test used throughout NaNEncoder. -/
def isNonFiniteFloat : JVal → Bool
  | .num x => !x.isFinite
  | _ => false

namespace NaNEncoder

mutual

/-- Model of NaNEncoder.iterencode (app.py lines 25-56), joined into one string.
renderQ models the json.dumps rendering of a finite float and renderS the
json.dumps rendering (quoting and escaping) of a string; both are parameters
because their exact output text is a property of the json library, not of app.py. -/
def iterencode (renderQ : ℚ → String) (renderS : String → String) : JVal → String
  | .obj o => "\x7b" ++ iterencodeFields renderQ renderS o ++ "\x7d"
  | .arr a => "[" ++ iterencodeList renderQ renderS a ++ "]"
  | .num x => if !x.isFinite then "null" else renderQ ((fun | F.fin q => q | _ => 0) x)
  | .int n => toString n
  | .str s => renderS s
  | .bool b => if b then "true" else "false"
  | .null => "null"

/-- The list items of iterencode, separated by a comma and space; a non-finite
float item is emitted as null without recursing. -/
def iterencodeList (renderQ : ℚ → String) (renderS : String → String) : JList → String
  | .nil => ""
  | .cons v .nil =>
      if isNonFiniteFloat v then "null" else iterencode renderQ renderS v
  | .cons v (.cons w tl) =>
      (if isNonFiniteFloat v then "null" else iterencode renderQ renderS v) ++ ", " ++
        iterencodeList renderQ renderS (.cons w tl)

/-- The dict items of iterencode: quoted key, a colon and space, then the value,
with a non-finite float value emitted as null without recursing. -/
def iterencodeFields (renderQ : ℚ → String) (renderS : String → String) : JFields → String
  | .nil => ""
  | .cons k v .nil =>
      renderS k ++ ": " ++ (if isNonFiniteFloat v then "null" else iterencode renderQ renderS v)
  | .cons k v (.cons k2 v2 tl) =>
      renderS k ++ ": " ++ (if isNonFiniteFloat v then "null" else iterencode renderQ renderS v) ++
        ", " ++ iterencodeFields renderQ renderS (.cons k2 v2 tl)

end

/-- Model of NaNEncoder.encode (app.py lines 20-23): a non-finite float at top
level is rendered as null, anything else is serialized via iterencode. -/
def encode (renderQ : ℚ → String) (renderS : String → String) (v : JVal) : String :=
  if isNonFiniteFloat v then "null" else iterencode renderQ renderS v

end NaNEncoder

mutual

/-- Replaces every non-finite float in a JSON value by null, recursively. -/
def deepNull : JVal → JVal
  | .num x => if !x.isFinite then .null else .num x
  | .arr a => .arr (deepNullList a)
  | .obj o => .obj (deepNullFields o)
  | v => v

/-- deepNull on list items. -/
def deepNullList : JList → JList
  | .nil => .nil
  | .cons v tl => .cons (deepNull v) (deepNullList tl)

/-- deepNull on dict items. -/
def deepNullFields : JFields → JFields
  | .nil => .nil
  | .cons k v tl => .cons k (deepNull v) (deepNullFields tl)

end

mutual

/-- True when the JSON value contains no NaN or infinite float anywhere. -/
def nonFiniteFree : JVal → Bool
  | .num x => x.isFinite
  | .arr a => nonFiniteFreeList a
  | .obj o => nonFiniteFreeFields o
  | _ => true

/-- nonFiniteFree on list items. -/
def nonFiniteFreeList : JList → Bool
  | .nil => true
  | .cons v tl => nonFiniteFree v && nonFiniteFreeList tl

/-- nonFiniteFree on dict items. -/
def nonFiniteFreeFields : JFields → Bool
  | .nil => true
  | .cons _ v tl => nonFiniteFree v && nonFiniteFreeFields tl

end

/-- Model of the Python exceptions the engine can raise. -/
inductive PyError where
  | valueError (msg : String)
  | indexError
  | other (msg : String)
deriving DecidableEq

/-- The str(e) text of an exception, as formatted into the 400/500 responses. -/
def PyError.message : PyError → String
  | .valueError m => m
  | .indexError => "list index out of range"
  | .other m => m

/-- Model of the Python int() truncation of a rational float, toward zero. -/
def pyInt (q : ℚ) : ℤ :=
  if 0 ≤ q then ⌊q⌋ else -⌊-q⌋

/-- An observed field after np.array(..., dtype=float): either a 1-D vector or a
2-D list of rows (possibly ragged, in which case np.array itself fails). -/
inductive NDArr where
  | arr1 (xs : List ℚ)
  | arr2 (t : List (List ℚ))
deriving DecidableEq

/-- The distribution specification of a goodness-of-fit request:
data.get of the distribution field (default empty) with its type and proportions entries.
Proportions keys are the str() of a category id. -/
structure DistSpec where
  dtype : Option String := none
  proportions : List (String × ℚ) := []
deriving DecidableEq

/-- Python dict .get(key, 0) on the proportions mapping. -/
def propGet (ps : List (String × ℚ)) (k : String) : ℚ :=
  (((ps.find? fun p => p.fst == k).map Prod.snd).getD 0)

/-- The parsed JSON request body, with the fields the engine reads and their
Python defaults. -/
structure Request where
  testType : Option String := none
  subtype : Option String := none
  observed : NDArr := .arr1 []
  distribution : DistSpec := {}
  codes : List String := []
  categoryLabels : List String := []
  rowLabels : List String := []
  colLabels : List String := []

/-- Each label wrapped in single quotes and comma-joined, as in the f-strings
building hypothesis text. -/
def joinQuoted (labels : List String) : String :=
  String.intercalate ", " (labels.map fun l => "\x27" ++ l ++ "\x27")

/-- Result record of the goodness-of-fit computor (app.py lines 136-149). -/
structure GofResult where
  test : String
  subtype : String
  statistic : Option ℚ
  pValue : Option ℚ
  df : ℕ
  sampleSize : ℤ
  observedCounts : List ℚ
  expectedCounts : List ℚ
  categoryLabels : List String
  nullHypothesis : String
  alternativeHypothesis : String
  interpretation : String

/-- The validation and expected-count derivation of the goodness-of-fit computor
(app.py lines 102-119): observed must be non-empty with a nonzero total, and the
expected counts are an even split for a uniform distribution, or
total times percentage over 100 per listed code (missing percentages default 0)
for a custom distribution; any other distribution type is a ValueError. -/
def gof_expected (observed : List ℚ) (distribution : DistSpec) (codes : List String) :
    Except PyError (List ℚ) :=
  if observed.length = 0 then .error (.valueError "No observed data provided")
  else if observed.sum = 0 then .error (.valueError "Total observed count is zero")
  else if distribution.dtype = some "uniform" then
    .ok (observed.map fun _ => observed.sum / observed.length)
  else if distribution.dtype = some "custom" then
    .ok (codes.map fun c => observed.sum * (propGet distribution.proportions c / 100))
  else .error (.valueError "Invalid distribution type specified.")

/-- Model of run_chi_square_goodness_of_fit (app.py lines 92-152). The scipy
chisquare procedure is an abstract parameter mapping observed and expected
counts to a (statistic, p-value) pair of floats; the model covers the inputs on
which the procedure returns. Only 1-D observed input is modelled; the claims
under verification never exercise a 2-D observed array on this computor. -/
def run_chi_square_goodness_of_fit (chisquare : List ℚ → List ℚ → F × F)
    (data : Request) : Except PyError GofResult :=
  match data.observed with
  | .arr2 _ => .error (.other "2-D observed input is outside the modelled scope")
  | .arr1 observed =>
    match gof_expected observed data.distribution data.codes with
    | .error e => .error e
    | .ok expected =>
      let categoriesText := joinQuoted data.categoryLabels
      let distText := if data.distribution.dtype = some "uniform" then "uniform"
        else "specified custom"
      let nullHypothesis := "The observed frequencies of the categories (" ++ categoriesText ++
        ") match the expected " ++ distText ++ " distribution."
      let alternativeHypothesis := "The observed frequencies of the categories (" ++
        categoriesText ++ ") do not match the expected " ++ distText ++ " distribution."
      let sp := chisquare observed expected
      let gofPositive := "The frequencies of your categories (" ++ categoriesText ++
        ") are significantly different from the expected " ++ distText ++ " distribution."
      let gofNegative := "There is no statistical evidence that the frequencies of your categories (" ++
        categoriesText ++ ") differ from the expected " ++ distText ++ " distribution."
      let testNotes := if expected.any fun e => decide (e < 5) then
          "Note: At least one category had an expected frequency below 5, which can reduce the accuracy of this test."
        else ""
      .ok {
        test := "Chi-Square Test"
        subtype := "Goodness-of-Fit"
        statistic := safe_float_conversion sp.fst
        pValue := safe_float_conversion sp.snd
        df := observed.length - 1
        sampleSize := pyInt observed.sum
        observedCounts := observed
        expectedCounts := expected
        categoryLabels := data.categoryLabels
        nullHypothesis := nullHypothesis
        alternativeHypothesis := alternativeHypothesis
        interpretation := get_interpretation sp.snd "Goodness-of-Fit" gofPositive gofNegative testNotes
      }

/-- Number of rows of a 2-D observed table. -/
def nRows (t : List (List ℚ)) : ℕ := t.length

/-- Number of columns of a 2-D observed table (length of the first row). -/
def nCols (t : List (List ℚ)) : ℕ := (t.headD []).length

/-- True when every row has the length of the first row; np.array fails on ragged
nested lists (inhomogeneous shape), so only rectangular tables reach the checks. -/
def rectB (t : List (List ℚ)) : Bool := t.all fun row => row.length == nCols t

/-- observed.size of the 2-D array: rows times columns. -/
def size2 (t : List (List ℚ)) : ℕ := nRows t * nCols t

/-- Entry i j of the table, 0 out of range (all claim-relevant accesses are in range). -/
def cell (t : List (List ℚ)) (i j : ℕ) : ℚ := (t.getD i []).getD j 0

/-- Row marginal total of the table. -/
def rowSum (t : List (List ℚ)) (i : ℕ) : ℚ := ∑ j ∈ Finset.range (nCols t), cell t i j

/-- Column marginal total of the table. -/
def colSum (t : List (List ℚ)) (j : ℕ) : ℚ := ∑ i ∈ Finset.range (nRows t), cell t i j

/-- Grand total of the table. -/
def grand (t : List (List ℚ)) : ℚ := ∑ i ∈ Finset.range (nRows t), rowSum t i

/-- Expected cell under independence: row total times column total over grand total,
as computed by scipy.stats.contingency.expected_freq. -/
def expCell (t : List (List ℚ)) (i j : ℕ) : ℚ := rowSum t i * colSum t j / grand t

/-- The expected table as a list of rows. -/
def expTable (t : List (List ℚ)) : List (List ℚ) :=
  (List.range (nRows t)).map fun i => (List.range (nCols t)).map fun j => expCell t i j

/-- np.any(observed < 0). -/
def anyNegB (t : List (List ℚ)) : Bool := t.any fun row => row.any fun x => decide (x < 0)

/-- np.any(expected == 0), the scipy degenerate-expected check. -/
def expZeroB (t : List (List ℚ)) : Bool :=
  (List.range (nRows t)).any fun i => (List.range (nCols t)).any fun j =>
    decide (expCell t i j = 0)

/-- np.any(expected < 5), the low-expected-count caveat test of the two
contingency computors. -/
def anyBelow5 (e : List (List ℚ)) : Bool := e.any fun row => row.any fun x => decide (x < 5)

/-- The uncorrected Pearson chi-square statistic of the table. -/
def pearsonChi2 (t : List (List ℚ)) : ℚ :=
  ∑ i ∈ Finset.range (nRows t), ∑ j ∈ Finset.range (nCols t),
    (cell t i j - expCell t i j) ^ 2 / expCell t i j

/-- np.sign on a rational float. -/
def pySign (q : ℚ) : ℚ := if 0 < q then 1 else if q < 0 then -1 else 0

/-- One observed cell after the scipy Yates continuity correction for dof = 1:
shifted toward the expected value by min(0.5, absolute difference). -/
def yCell (t : List (List ℚ)) (i j : ℕ) : ℚ :=
  cell t i j + pySign (expCell t i j - cell t i j) * min (1/2) |expCell t i j - cell t i j|

/-- The continuity-corrected chi-square statistic used by scipy when dof = 1. -/
def yatesChi2 (t : List (List ℚ)) : ℚ :=
  ∑ i ∈ Finset.range (nRows t), ∑ j ∈ Finset.range (nCols t),
    (yCell t i j - expCell t i j) ^ 2 / expCell t i j

/-- The degrees of freedom scipy derives from the table shape:
(rows - 1) times (cols - 1). -/
def dofOf (t : List (List ℚ)) : ℕ := (nRows t - 1) * (nCols t - 1)

/-- The statistic scipy reports when dof is nonzero: the continuity-corrected
statistic for dof = 1 and the Pearson statistic otherwise. -/
def chi2Stat (t : List (List ℚ)) : ℚ :=
  if dofOf t = 1 then yatesChi2 t else pearsonChi2 t

/-- Model of scipy.stats.chi2_contingency on a rectangular 2-D table: rejects
negative entries and zero expected cells, computes dof from the shape, returns
statistic 0 and p-value 1 when dof = 0, applies the clamped Yates correction when
dof = 1, and otherwise uses the Pearson statistic. The p-value lookup against the
chi-square distribution is the abstract parameter pfun. -/
def chi2_contingency (pfun : ℚ → ℕ → F) (t : List (List ℚ)) :
    Except PyError (ℚ × F × ℕ × List (List ℚ)) :=
  if anyNegB t then .error (.valueError "All values in observed must be nonnegative.")
  else if size2 t = 0 then .error (.valueError "No data; observed has size 0.")
  else if expZeroB t then
    .error (.valueError "The internally computed table of expected frequencies has a zero element.")
  else if dofOf t = 0 then .ok (0, F.fin 1, 0, expTable t)
  else .ok (chi2Stat t, pfun (chi2Stat t) (dofOf t), dofOf t, expTable t)

/-- Model of calculate_cramers_v (app.py lines 76-90): None when chi2 is None or
n is zero, exactly 0.0 when min(rows-1, cols-1) is zero, otherwise the square
root of phi2 over that minimum dimension. -/
noncomputable def calculate_cramers_v (chi2 : Option ℚ) (n : ℚ) (table : List (List ℚ)) :
    Option ℝ :=
  match chi2 with
  | none => none
  | some c =>
    if n = 0 then none
    else
      let rows := table.length
      let cols := (table.headD []).length
      let phi2 := c / n
      let minDim := min (rows - 1) (cols - 1)
      if minDim = 0 then some (0 : ℝ)
      else some (Real.sqrt ((phi2 / (minDim : ℚ) : ℚ) : ℝ))

/-- Restatement of the effect-size calculator from the specification text alone:
absent when chi2 is absent or n is zero; phi2 = chi2 / n; minDim = min(rows-1, cols-1)
from the supplied shape; exactly 0.0 when minDim = 0; else sqrt(phi2 / minDim). -/
noncomputable def cramersVSpec (chi2 : Option ℚ) (n : ℚ) (rows cols : ℕ) : Option ℝ :=
  match chi2 with
  | none => none
  | some c =>
    if n = 0 then none
    else
      let minDim := min (rows - 1) (cols - 1)
      if minDim = 0 then some (0 : ℝ)
      else some (Real.sqrt ((c / n / (minDim : ℚ) : ℚ) : ℝ))

/-- Result record shared by the independence and homogeneity computors
(app.py lines 192-207 and 254-269). -/
structure ContingencyResult where
  test : String
  subtype : String
  statistic : Option ℚ
  pValue : Option ℚ
  df : ℕ
  cramersV : Option ℝ
  sampleSize : ℤ
  observedTable : List (List ℚ)
  expectedTable : List (List ℚ)
  rowLabels : List String
  colLabels : List String
  nullHypothesis : String
  alternativeHypothesis : String
  interpretation : String

/-- Shared caveat note of the two contingency computors. -/
def contingencyNote : String :=
  "Note: The accuracy of this test may be reduced because one or more cells had an expected frequency below 5."

/-- Model of run_chi_square_independence (app.py lines 154-210): validates the
observed array, runs the chi-square procedure, derives the effect size and
assembles the result record with the association narrative. -/
noncomputable def run_chi_square_independence (pfun : ℚ → ℕ → F) (data : Request) :
    Except PyError ContingencyResult :=
  match data.observed with
  | .arr1 xs =>
    if xs.length = 0 then .error (.valueError "No observed data provided")
    else if xs.sum = 0 then .error (.valueError "All observed values are zero")
    else .error (.valueError "Observed data must be a 2D contingency table")
  | .arr2 t =>
    if rectB t = false then
      .error (.valueError "setting an array element with a sequence: inhomogeneous shape")
    else if size2 t = 0 then .error (.valueError "No observed data provided")
    else if grand t = 0 then .error (.valueError "All observed values are zero")
    else
      match chi2_contingency pfun t with
      | .error e => .error e
      | .ok (chi2, p, df, expected) =>
        let n := grand t
        let cramersV := calculate_cramers_v (some chi2) n t
        let nullHypothesis :=
          "There is no association between the variables \x27Codes\x27 and \x27Documents\x27."
        let alternativeHypothesis :=
          "There is a significant association between the variables \x27Codes\x27 and \x27Documents\x27."
        let positiveConclusion :=
          "The analysis suggests a significant association exists between your selected codes and documents."
        let negativeConclusion :=
          "There is no statistical evidence of an association between your selected codes and documents."
        let testNotes := if anyBelow5 expected then contingencyNote else ""
        .ok {
          test := "Chi-Square Test"
          subtype := "Independence"
          statistic := safe_float_conversion (F.fin chi2)
          pValue := safe_float_conversion p
          df := df
          cramersV := cramersV
          sampleSize := pyInt (grand t)
          observedTable := t
          expectedTable := expected
          rowLabels := data.rowLabels
          colLabels := data.colLabels
          nullHypothesis := nullHypothesis
          alternativeHypothesis := alternativeHypothesis
          interpretation :=
            get_interpretation p "independence" positiveConclusion negativeConclusion testNotes
        }

/-- The group identifier in front of the first colon of a composite row label. -/
def groupOf (label : String) : String := (label.splitOn ":").headD ""

/-- Insertion of a string into a sorted list of strings. -/
def insertStr (x : String) : List String → List String
  | [] => [x]
  | y :: ys => if x ≤ y then x :: y :: ys else y :: insertStr x ys

/-- Insertion sort on strings, modelling Python sorted(). -/
def sortStr : List String → List String
  | [] => []
  | x :: xs => insertStr x (sortStr xs)

/-- sorted(list(set(...))): the distinct values in ascending order. -/
def sortedDistinct (ls : List String) : List String := sortStr ls.dedup

/-- Model of run_chi_square_homogeneity (app.py lines 212-272): the identical
validation and numeric path as the independence computor, with the narrative
built from the group prefixes of the row labels. -/
noncomputable def run_chi_square_homogeneity (pfun : ℚ → ℕ → F) (data : Request) :
    Except PyError ContingencyResult :=
  match data.observed with
  | .arr1 xs =>
    if xs.length = 0 then .error (.valueError "No observed data provided")
    else if xs.sum = 0 then .error (.valueError "All observed values are zero")
    else .error (.valueError "Observed data must be a 2D contingency table")
  | .arr2 t =>
    if rectB t = false then
      .error (.valueError "setting an array element with a sequence: inhomogeneous shape")
    else if size2 t = 0 then .error (.valueError "No observed data provided")
    else if grand t = 0 then .error (.valueError "All observed values are zero")
    else
      match chi2_contingency pfun t with
      | .error e => .error e
      | .ok (chi2, p, df, expected) =>
        let n := grand t
        let cramersV := calculate_cramers_v (some chi2) n t
        let groupName := joinQuoted data.colLabels
        let uniqueVars := sortedDistinct (data.rowLabels.map groupOf)
        let varName := joinQuoted uniqueVars
        let codesLabel := "code" ++ (if uniqueVars.length > 1 then "s" else "")
        let nullHypothesis := "The distribution of the " ++ codesLabel ++ " (" ++ varName ++
          ") is the same across all groups (" ++ groupName ++ ")."
        let alternativeHypothesis := "The distribution of the " ++ codesLabel ++ " (" ++ varName ++
          ") is different for at least one group in (" ++ groupName ++ ")."
        let positiveConclusion :=
          "The analysis suggests that the frequency distribution of codes is significantly different across the defined groups."
        let negativeConclusion :=
          "There is no statistical evidence that the frequency distribution of codes differs across the defined groups."
        let testNotes := if anyBelow5 expected then contingencyNote else ""
        .ok {
          test := "Chi-Square Test"
          subtype := "Homogeneity"
          statistic := safe_float_conversion (F.fin chi2)
          pValue := safe_float_conversion p
          df := df
          cramersV := cramersV
          sampleSize := pyInt (grand t)
          observedTable := t
          expectedTable := expected
          rowLabels := data.rowLabels
          colLabels := data.colLabels
          nullHypothesis := nullHypothesis
          alternativeHypothesis := alternativeHypothesis
          interpretation :=
            get_interpretation p "homogeneity" positiveConclusion negativeConclusion testNotes
        }

/-- Result record of the Fisher exact computor (app.py lines 316-330). -/
structure FisherResult where
  test : String
  subtype : String
  statistic : Option ℚ
  statisticLabel : String
  pValue : Option ℚ
  df : String
  sampleSize : ℤ
  observedTable : List (List ℚ)
  rowLabels : List String
  colLabels : List String
  nullHypothesis : String
  alternativeHypothesis : String
  interpretation : String

/-- Caveat note of the degenerate (zero marginal) branch of the Fisher computor. -/
def fisherZeroNote : String :=
  "Note: The odds ratio cannot be calculated because one or more groups have zero observations."

/-- Caveat note attached when the computed odds ratio is non-finite. -/
def fisherNonFiniteNote : String :=
  "Note: The odds ratio cannot be reliably calculated for this data configuration."

/-- Model of run_fishers_exact_test (app.py lines 274-333). The scipy
fisher_exact procedure is an abstract parameter from the 2x2 table to the
(odds ratio, p-value) float pair; the model covers the inputs on which the
procedure returns. A zero row or column marginal skips the procedure entirely
and fixes the p-value at 1.0 with an undefined odds ratio; the hypothesis text
then indexes the first two row and column labels, raising IndexError when fewer
are supplied. -/
def run_fishers_exact_test (fisher_exact : List (List ℚ) → F × F) (data : Request) :
    Except PyError FisherResult :=
  match data.observed with
  | .arr1 _ => .error (.valueError "Fisher\x27s Exact Test is only applicable to 2x2 tables.")
  | .arr2 t =>
    if rectB t = false then
      .error (.valueError "setting an array element with a sequence: inhomogeneous shape")
    else
      match t with
      | [[a, b], [c, d]] =>
        let degenerate : Bool := a + b = 0 || c + d = 0 || a + c = 0 || b + d = 0
        let obp : Option F × F × String :=
          if degenerate then (none, F.fin 1, fisherZeroNote)
          else
            let s := fisher_exact [[a, b], [c, d]]
            if s.fst.isFinite then (some s.fst, s.snd, "")
            else (none, s.snd, fisherNonFiniteNote)
        match data.rowLabels, data.colLabels with
        | r0 :: r1 :: _, c0 :: c1 :: _ =>
          let oddsRat := obp.fst
          let pValue := obp.snd.fst
          let testNotes := obp.snd.snd
          let nullHypothesis := "There is no association between \x27Variable 1\x27 (" ++ r0 ++
            " vs " ++ r1 ++ ") and \x27Variable 2\x27 (" ++ c0 ++ " vs " ++ c1 ++ ")."
          let alternativeHypothesis := "There is a non-random association between the two variables."
          let positiveConclusion := "The analysis reveals a significant association between the variables."
          let negativeConclusion := "There is no statistical evidence of an association between the variables."
          .ok {
            test := "Fisher\x27s Exact Test"
            subtype := "Contingency"
            statistic := oddsRat.bind safe_float_conversion
            statisticLabel := "Odds Ratio"
            pValue := safe_float_conversion pValue
            df := "N/A"
            sampleSize := pyInt (a + b + c + d)
            observedTable := [[a, b], [c, d]]
            rowLabels := data.rowLabels
            colLabels := data.colLabels
            nullHypothesis := nullHypothesis
            alternativeHypothesis := alternativeHypothesis
            interpretation :=
              get_interpretation pValue "fisher" positiveConclusion negativeConclusion testNotes
          }
        | _, _ => .error .indexError
      | _ => .error (.valueError "Fisher\x27s Exact Test is only applicable to 2x2 tables.")

/-- The outward response of the request handler: a serialized result, or an
error record with a message and an HTTP status. -/
inductive PyResponse (γ : Type) where
  | okJson (v : γ)
  | err (message : String) (status : ℕ)
deriving DecidableEq

/-- The except-clauses of handle_test_request (app.py lines 367-372): ValueError
becomes a 400 validation response, any other exception a 500 internal response. -/
def wrapResult {γ : Type} : Except PyError γ → PyResponse γ
  | .ok r => .okJson r
  | .error (.valueError m) => .err ("Validation error: " ++ m) 400
  | .error e => .err ("An internal error occurred: " ++ e.message) 500

/-- Python str() of an optional string field, rendering a missing field as None. -/
def optStr : Option String → String
  | none => "None"
  | some s => s

/-- Model of handle_test_request (app.py lines 335-372), parametrized by the
four computors so that the dispatch logic is independent of their bodies. A
missing or empty JSON payload is the None case. -/
def handle_test_request {γ : Type} (cGof cInd cHom cFis : Request → Except PyError γ)
    (payload : Option Request) : PyResponse γ :=
  match payload with
  | none => .err "Invalid JSON payload" 400
  | some data =>
    if data.testType = some "chi-square" then
      if data.subtype = some "goodness-of-fit" then wrapResult (cGof data)
      else if data.subtype = some "independence" then wrapResult (cInd data)
      else if data.subtype = some "homogeneity" then wrapResult (cHom data)
      else if data.subtype = some "fishers-exact" then wrapResult (cFis data)
      else .err ("Invalid Chi-Square subtype: " ++ optStr data.subtype) 400
    else .err ("Unsupported test type: " ++ optStr data.testType) 400

/-- The four numeric fields the equivalence claim compares between the
independence and homogeneity computors. -/
def numericFields (r : ContingencyResult) : Option ℚ × Option ℚ × ℕ × Option ℝ :=
  (r.statistic, r.pValue, r.df, r.cramersV)

/-- A concrete p-value lookup used for witness instantiations. -/
def pfun0 : ℚ → ℕ → F := fun _ _ => F.fin 1

/-- A concrete scipy.stats.chisquare stand-in whose p-value is NaN. -/
def chisquareNaN : List ℚ → List ℚ → F × F := fun _ _ => (F.fin 0, F.nan)

/-- A concrete scipy.stats.fisher_exact stand-in used for witness instantiations. -/
def fisher0 : List (List ℚ) → F × F := fun _ => (F.fin 1, F.fin 1)

/-- A concrete independence request on the 1x1 table [[1]]. -/
def dataIndep0 : Request := {
  testType := some "chi-square"
  subtype := some "independence"
  observed := NDArr.arr2 [[1]]
}

/-- A concrete goodness-of-fit request: two categories of one observation each,
uniform expected distribution. -/
def dataGof0 : Request := {
  testType := some "chi-square"
  subtype := some "goodness-of-fit"
  observed := NDArr.arr1 [1, 1]
  distribution := { dtype := some "uniform" }
  categoryLabels := ["a", "b"]
}

/-- A concrete custom goodness-of-fit distribution whose percentages sum to 100. -/
def distCustom100 : DistSpec := { dtype := some "custom", proportions := [("c1", 25), ("c2", 75)] }

/-- A concrete custom goodness-of-fit distribution listing only 50 percent, so
the listed percentages do not sum to 100. -/
def distCustom50 : DistSpec := { dtype := some "custom", proportions := [("c1", 50)] }

/-- A concrete degenerate Fisher request: first row all zero, two row and two
column labels supplied. -/
def dataFisherDeg : Request := {
  testType := some "chi-square"
  subtype := some "fishers-exact"
  observed := NDArr.arr2 [[0, 0], [1, 1]]
  rowLabels := ["r0", "r1"]
  colLabels := ["c0", "c1"]
}

/-- A concrete degenerate Fisher request with no labels at all. -/
def dataFisherNoLabels : Request := {
  testType := some "chi-square"
  subtype := some "fishers-exact"
  observed := NDArr.arr2 [[0, 0], [1, 1]]
}

/-- A concrete non-degenerate Fisher request with too few row labels. -/
def dataFisherShort : Request := {
  testType := some "chi-square"
  subtype := some "fishers-exact"
  observed := NDArr.arr2 [[1, 2], [3, 4]]
  rowLabels := ["only"]
  colLabels := ["c0", "c1"]
}

/-- The result record the independence computor produces on the request dataIndep0. -/
noncomputable def resIndep0 : ContingencyResult := {
  test := "Chi-Square Test"
  subtype := "Independence"
  statistic := some 0
  pValue := some 1
  df := 0
  cramersV := some (0:ℝ)
  sampleSize := 1
  observedTable := [[1]]
  expectedTable := [[1]]
  rowLabels := []
  colLabels := []
  nullHypothesis := "There is no association between the variables \x27Codes\x27 and \x27Documents\x27."
  alternativeHypothesis := "There is a significant association between the variables \x27Codes\x27 and \x27Documents\x27."
  interpretation := nonsigHead ++ "There is no statistical evidence of an association between your selected codes and documents." ++ " " ++ contingencyNote
}

/-- The result record the goodness-of-fit computor produces on dataGof0 under a
NaN-returning procedure. -/
def resGof0 : GofResult := {
  test := "Chi-Square Test"
  subtype := "Goodness-of-Fit"
  statistic := some 0
  pValue := none
  df := 1
  sampleSize := 2
  observedCounts := [1, 1]
  expectedCounts := [1, 1]
  categoryLabels := ["a", "b"]
  nullHypothesis := "The observed frequencies of the categories (" ++ joinQuoted ["a", "b"] ++
    ") match the expected uniform distribution."
  alternativeHypothesis := "The observed frequencies of the categories (" ++
    joinQuoted ["a", "b"] ++ ") do not match the expected uniform distribution."
  interpretation := nonsigHead ++
    ("There is no statistical evidence that the frequencies of your categories (" ++
      joinQuoted ["a", "b"] ++ ") differ from the expected uniform distribution.") ++ " " ++
    "Note: At least one category had an expected frequency below 5, which can reduce the accuracy of this test."
}

/-- A placeholder computor used to instantiate the parametrized handler. -/
def cUnit : Request → Except PyError Unit := fun _ => .error (.other "unused")

/-- A placeholder computor with the Fisher result type for handler instantiation. -/
def cFisherUnused : Request → Except PyError FisherResult := fun _ => .error (.other "unused")

/-- A request with a recognized family but an unrecognized subtype. -/
def dataBadSubtype : Request := { testType := some "chi-square", subtype := some "bogus" }

/-- A request whose test family is not chi-square. -/
def dataBadType : Request := { testType := some "anova" }

mutual

/-- Encoding an object after nulling every non-finite float yields exactly the
same text the NaN-aware encoder produces on the original object. -/
theorem iterencode_deepNull (q : ℚ → String) (s : String → String) :
    ∀ v : JVal, NaNEncoder.iterencode q s (deepNull v) = NaNEncoder.iterencode q s v
  | .num x => by
      cases x <;> simp [deepNull, NaNEncoder.iterencode, F.isFinite]
  | .int _ => rfl
  | .str _ => rfl
  | .bool _ => rfl
  | .null => rfl
  | .arr a => by
      simp only [deepNull, NaNEncoder.iterencode, iterencodeList_deepNull q s a]
  | .obj o => by
      simp only [deepNull, NaNEncoder.iterencode, iterencodeFields_deepNull q s o]

/-- iterencode_deepNull for list items. -/
theorem iterencodeList_deepNull (q : ℚ → String) (s : String → String) :
    ∀ a : JList, NaNEncoder.iterencodeList q s (deepNullList a) = NaNEncoder.iterencodeList q s a
  | .nil => rfl
  | .cons v .nil => by
      cases v with
      | num x => cases x <;> rfl
      | arr a' =>
          have h := iterencode_deepNull q s (JVal.arr a')
          simp only [deepNull] at h
          simp [deepNullList, deepNull, NaNEncoder.iterencodeList, isNonFiniteFloat, h]
      | obj o' =>
          have h := iterencode_deepNull q s (JVal.obj o')
          simp only [deepNull] at h
          simp [deepNullList, deepNull, NaNEncoder.iterencodeList, isNonFiniteFloat, h]
      | _ => rfl
  | .cons v (.cons w tl) => by
      have hrest := iterencodeList_deepNull q s (JList.cons w tl)
      simp only [deepNullList] at hrest
      cases v with
      | num x =>
          cases x <;>
            simp_all [deepNullList, deepNull, NaNEncoder.iterencodeList, isNonFiniteFloat,
              F.isFinite, NaNEncoder.iterencode]
      | arr a' =>
          have h := iterencode_deepNull q s (JVal.arr a')
          simp only [deepNull] at h
          simp_all [deepNullList, deepNull, NaNEncoder.iterencodeList, isNonFiniteFloat]
      | obj o' =>
          have h := iterencode_deepNull q s (JVal.obj o')
          simp only [deepNull] at h
          simp_all [deepNullList, deepNull, NaNEncoder.iterencodeList, isNonFiniteFloat]
      | _ => simp_all [deepNullList, deepNull, NaNEncoder.iterencodeList, isNonFiniteFloat]

/-- iterencode_deepNull for dict items. -/
theorem iterencodeFields_deepNull (q : ℚ → String) (s : String → String) :
    ∀ o : JFields,
      NaNEncoder.iterencodeFields q s (deepNullFields o) = NaNEncoder.iterencodeFields q s o
  | .nil => rfl
  | .cons _ v .nil => by
      cases v with
      | num x => cases x <;> rfl
      | arr a' =>
          have h := iterencode_deepNull q s (JVal.arr a')
          simp only [deepNull] at h
          simp [deepNullFields, deepNull, NaNEncoder.iterencodeFields, isNonFiniteFloat, h]
      | obj o' =>
          have h := iterencode_deepNull q s (JVal.obj o')
          simp only [deepNull] at h
          simp [deepNullFields, deepNull, NaNEncoder.iterencodeFields, isNonFiniteFloat, h]
      | _ => rfl
  | .cons _ v (.cons k2 v2 tl) => by
      have hrest := iterencodeFields_deepNull q s (JFields.cons k2 v2 tl)
      simp only [deepNullFields] at hrest
      cases v with
      | num x =>
          cases x <;>
            simp_all [deepNullFields, deepNull, NaNEncoder.iterencodeFields, isNonFiniteFloat,
              F.isFinite, NaNEncoder.iterencode]
      | arr a' =>
          have h := iterencode_deepNull q s (JVal.arr a')
          simp only [deepNull] at h
          simp_all [deepNullFields, deepNull, NaNEncoder.iterencodeFields, isNonFiniteFloat]
      | obj o' =>
          have h := iterencode_deepNull q s (JVal.obj o')
          simp only [deepNull] at h
          simp_all [deepNullFields, deepNull, NaNEncoder.iterencodeFields, isNonFiniteFloat]
      | _ => simp_all [deepNullFields, deepNull, NaNEncoder.iterencodeFields, isNonFiniteFloat]

end

mutual

/-- The deep-nulled form of any JSON value is free of non-finite floats. -/
theorem nonFiniteFree_deepNull : ∀ v : JVal, nonFiniteFree (deepNull v) = true
  | .num x => by cases x <;> rfl
  | .int _ => rfl
  | .str _ => rfl
  | .bool _ => rfl
  | .null => rfl
  | .arr a => nonFiniteFreeList_deepNull a
  | .obj o => nonFiniteFreeFields_deepNull o

/-- nonFiniteFree_deepNull for list items. -/
theorem nonFiniteFreeList_deepNull : ∀ a : JList, nonFiniteFreeList (deepNullList a) = true
  | .nil => rfl
  | .cons v tl => by
      simp [deepNullList, nonFiniteFreeList, nonFiniteFree_deepNull v, nonFiniteFreeList_deepNull tl]

/-- nonFiniteFree_deepNull for dict items. -/
theorem nonFiniteFreeFields_deepNull : ∀ o : JFields, nonFiniteFreeFields (deepNullFields o) = true
  | .nil => rfl
  | .cons k v tl => by
      simp [deepNullFields, nonFiniteFreeFields, nonFiniteFree_deepNull v,
        nonFiniteFreeFields_deepNull tl]

end

/-- Helper: the top-level encode also agrees with the deep-nulled form. -/
theorem encode_deepNull (q : ℚ → String) (s : String → String) (v : JVal) :
    NaNEncoder.encode q s (deepNull v) = NaNEncoder.encode q s v := by
  cases v with
  | num x =>
      cases x <;> rfl
  | arr a =>
      have h := iterencode_deepNull q s (JVal.arr a)
      simp only [NaNEncoder.encode, isNonFiniteFloat, deepNull, Bool.false_eq_true, if_false] at *
      exact h
  | obj o =>
      have h := iterencode_deepNull q s (JVal.obj o)
      simp only [NaNEncoder.encode, isNonFiniteFloat, deepNull, Bool.false_eq_true, if_false] at *
      exact h
  | _ => rfl

/-- C1: the sanitizer maps every non-finite scalar to the absent marker, and the
encoder output on any JSON value coincides with its output on the value with
every embedded non-finite float replaced by null, a value that is free of
non-finite floats, so no NaN or Infinity literal can reach the serialized text. -/
theorem claim_C1_no_nonfinite_in_output :
    (∀ x : F, safe_float_conversion x = none ↔ x.isFinite = false) ∧
    (∀ (renderQ : ℚ → String) (renderS : String → String) (v : JVal),
      NaNEncoder.encode renderQ renderS v = NaNEncoder.encode renderQ renderS (deepNull v) ∧
      NaNEncoder.iterencode renderQ renderS v =
        NaNEncoder.iterencode renderQ renderS (deepNull v) ∧
      nonFiniteFree (deepNull v) = true) := by
  constructor
  · intro x
    cases x <;> simp [safe_float_conversion, F.isFinite]
  · intro renderQ renderS v
    exact ⟨(encode_deepNull renderQ renderS v).symm,
      (iterencode_deepNull renderQ renderS v).symm,
      nonFiniteFree_deepNull v⟩

/-- C2: on every request the homogeneity computor and the independence computor
agree exactly on the statistic, p-value, degrees of freedom and effect size
(including agreeing on which requests are rejected); only narrative and label
fields can differ. -/
theorem claim_C2_homogeneity_equals_independence :
    ∀ (pfun : ℚ → ℕ → F) (data : Request),
      (run_chi_square_homogeneity pfun data).map numericFields =
        (run_chi_square_independence pfun data).map numericFields := by
  intro pfun data
  unfold run_chi_square_homogeneity run_chi_square_independence
  cases data.observed with
  | arr1 xs => rfl
  | arr2 t =>
    dsimp only
    split_ifs <;> try rfl
    all_goals
      cases hc : chi2_contingency pfun t with
      | error e => rfl
      | ok r =>
        obtain ⟨chi2, p, df, exp⟩ := r
        rfl

/-- C5: the effect-size calculator coincides with its specification restatement:
absent marker when chi2 is absent or n = 0, exactly 0.0 when
min(rows-1, cols-1) = 0 from the table shape regardless of chi2, and
sqrt(phi2 / minDim) otherwise. -/
theorem claim_C5_cramers_v_cases :
    ∀ (chi2 : Option ℚ) (n : ℚ) (table : List (List ℚ)),
      calculate_cramers_v chi2 n table =
        cramersVSpec chi2 n table.length (table.headD []).length := by
  intro chi2 n table
  cases chi2 with
  | none => rfl
  | some c => rfl

/-- C7: the interpretation generator is a pure function with the exclusive
0.05 boundary: a finite p-value strictly below 0.05 produces the significant,
reject-null narrative with the positive conclusion, and any finite p-value at or
above 0.05 produces the not-significant, fail-to-reject narrative with the
negative conclusion, the notes appended verbatim in both cases. -/
theorem claim_C7_interpretation_threshold :
    ∀ (q : ℚ) (st pos neg notes : String),
      get_interpretation (F.fin q) st pos neg notes =
        if q < 1/20 then sigHead ++ pos ++ " " ++ notes
        else nonsigHead ++ neg ++ " " ++ notes := by
  intro q st pos neg notes
  by_cases h : q < 1/20 <;> simp [get_interpretation, F.lt, h]


theorem pearson_sum_le (o : ℕ → ℕ → ℚ) (R C : ℕ) (r c : ℕ → ℚ) (n : ℚ)
    (hr : ∀ i ∈ Finset.range R, r i = ∑ j ∈ Finset.range C, o i j)
    (hc : ∀ j ∈ Finset.range C, c j = ∑ i ∈ Finset.range R, o i j)
    (hn : n = ∑ i ∈ Finset.range R, ∑ j ∈ Finset.range C, o i j)
    (hnn : ∀ i ∈ Finset.range R, ∀ j ∈ Finset.range C, 0 ≤ o i j)
    (hrpos : ∀ i ∈ Finset.range R, 0 < r i)
    (hcpos : ∀ j ∈ Finset.range C, 0 < c j)
    (hnpos : 0 < n) :
    ∑ i ∈ Finset.range R, ∑ j ∈ Finset.range C,
        (o i j - r i * c j / n) ^ 2 / (r i * c j / n) ≤ n * R - n := by
  have hne : n ≠ 0 := ne_of_gt hnpos
  have hcn : ∑ j ∈ Finset.range C, c j = n := by
    rw [hn, Finset.sum_comm]
    exact Finset.sum_congr rfl hc
  have hterm : ∀ i ∈ Finset.range R, ∀ j ∈ Finset.range C,
      (o i j - r i * c j / n) ^ 2 / (r i * c j / n)
        = o i j ^ 2 * n / (r i * c j) - 2 * o i j + r i * c j / n := by
    intro i hi j hj
    have hrp := hrpos i hi
    have hcp := hcpos j hj
    field_simp
    ring
  have hsum2 : ∑ i ∈ Finset.range R, ∑ j ∈ Finset.range C, o i j ^ 2 * n / (r i * c j)
      ≤ R * n := by
    have hkey : ∀ i ∈ Finset.range R,
        ∑ j ∈ Finset.range C, o i j ^ 2 * n / (r i * c j) ≤ n := by
      intro i hi
      have hrp := hrpos i hi
      have h1 : ∀ j ∈ Finset.range C, o i j ^ 2 * n / (r i * c j) ≤ o i j * (n / r i) := by
        intro j hj
        have hcp := hcpos j hj
        have honn := hnn i hi j hj
        have hoc : o i j ≤ c j := by
          rw [hc j hj]
          exact Finset.single_le_sum (fun k hk => hnn k hk j hj) hi
        have hstep : o i j ^ 2 / c j ≤ o i j := by
          rw [div_le_iff₀ hcp, sq]
          exact mul_le_mul_of_nonneg_left hoc honn
        have heq : o i j ^ 2 * n / (r i * c j) = (o i j ^ 2 / c j) * (n / r i) := by
          ring
        rw [heq]
        exact mul_le_mul_of_nonneg_right hstep (by positivity)
      calc ∑ j ∈ Finset.range C, o i j ^ 2 * n / (r i * c j)
          ≤ ∑ j ∈ Finset.range C, o i j * (n / r i) := Finset.sum_le_sum h1
        _ = (∑ j ∈ Finset.range C, o i j) * (n / r i) := (Finset.sum_mul _ _ _).symm
        _ = r i * (n / r i) := by rw [← hr i hi]
        _ = n := by field_simp
    calc ∑ i ∈ Finset.range R, ∑ j ∈ Finset.range C, o i j ^ 2 * n / (r i * c j)
        ≤ ∑ _i ∈ Finset.range R, n := Finset.sum_le_sum hkey
      _ = R * n := by rw [Finset.sum_const, Finset.card_range, nsmul_eq_mul]
  have hsume : ∑ i ∈ Finset.range R, ∑ j ∈ Finset.range C, r i * c j / n
      = n := by
    have hinner : ∀ i ∈ Finset.range R, ∑ j ∈ Finset.range C, r i * c j / n = r i := by
      intro i hi
      have : ∑ j ∈ Finset.range C, r i * c j / n = (r i / n) * ∑ j ∈ Finset.range C, c j := by
        rw [Finset.mul_sum]
        exact Finset.sum_congr rfl fun j _ => by ring
      rw [this, hcn]
      field_simp
    rw [Finset.sum_congr rfl hinner, hn]
    exact Finset.sum_congr rfl hr
  have hsumo : ∑ i ∈ Finset.range R, ∑ j ∈ Finset.range C, o i j = n := hn.symm
  calc ∑ i ∈ Finset.range R, ∑ j ∈ Finset.range C,
        (o i j - r i * c j / n) ^ 2 / (r i * c j / n)
      = ∑ i ∈ Finset.range R, ∑ j ∈ Finset.range C,
          (o i j ^ 2 * n / (r i * c j) - 2 * o i j + r i * c j / n) := by
        refine Finset.sum_congr rfl fun i hi => Finset.sum_congr rfl fun j hj => hterm i hi j hj
    _ = (∑ i ∈ Finset.range R, ∑ j ∈ Finset.range C, o i j ^ 2 * n / (r i * c j))
          - 2 * (∑ i ∈ Finset.range R, ∑ j ∈ Finset.range C, o i j)
          + (∑ i ∈ Finset.range R, ∑ j ∈ Finset.range C, r i * c j / n) := by
        simp [Finset.sum_add_distrib, Finset.sum_sub_distrib, Finset.mul_sum]
    _ = (∑ i ∈ Finset.range R, ∑ j ∈ Finset.range C, o i j ^ 2 * n / (r i * c j)) - 2 * n + n := by
        rw [hsumo, hsume]
    _ ≤ R * n - 2 * n + n := by linarith
    _ = n * R - n := by ring


theorem pearson_sum_le_cols (o : ℕ → ℕ → ℚ) (R C : ℕ) (r c : ℕ → ℚ) (n : ℚ)
    (hr : ∀ i ∈ Finset.range R, r i = ∑ j ∈ Finset.range C, o i j)
    (hc : ∀ j ∈ Finset.range C, c j = ∑ i ∈ Finset.range R, o i j)
    (hn : n = ∑ i ∈ Finset.range R, ∑ j ∈ Finset.range C, o i j)
    (hnn : ∀ i ∈ Finset.range R, ∀ j ∈ Finset.range C, 0 ≤ o i j)
    (hrpos : ∀ i ∈ Finset.range R, 0 < r i)
    (hcpos : ∀ j ∈ Finset.range C, 0 < c j)
    (hnpos : 0 < n) :
    ∑ i ∈ Finset.range R, ∑ j ∈ Finset.range C,
        (o i j - r i * c j / n) ^ 2 / (r i * c j / n) ≤ n * C - n := by
  have h := pearson_sum_le (fun j i => o i j) C R c r n
    (fun j hj => hc j hj) (fun i hi => hr i hi)
    (by rw [hn, Finset.sum_comm]) (fun j hj i hi => hnn i hi j hj)
    hcpos hrpos hnpos
  calc ∑ i ∈ Finset.range R, ∑ j ∈ Finset.range C,
        (o i j - r i * c j / n) ^ 2 / (r i * c j / n)
      = ∑ j ∈ Finset.range C, ∑ i ∈ Finset.range R,
          (o i j - c j * r i / n) ^ 2 / (c j * r i / n) := by
        rw [Finset.sum_comm]
        exact Finset.sum_congr rfl fun j _ => Finset.sum_congr rfl fun i _ => by
          rw [mul_comm (r i) (c j)]
    _ ≤ n * C - n := h

theorem yCell_sq_le (t : List (List ℚ)) (i j : ℕ) :
    (yCell t i j - expCell t i j) ^ 2 ≤ (cell t i j - expCell t i j) ^ 2 := by
  unfold yCell pySign
  set ob := cell t i j with hob
  set e := expCell t i j with he
  rcases lt_trichotomy 0 (e - ob) with hd | hd | hd
  · rw [if_pos hd, abs_of_pos hd]
    have h0 : (0:ℚ) ≤ min (1/2) (e - ob) := le_min (by norm_num) (le_of_lt hd)
    have h1 : min (1/2) (e - ob) ≤ e - ob := min_le_right _ _
    nlinarith [h0, h1]
  · rw [if_neg (by rw [← hd]; exact lt_irrefl 0), if_neg (by rw [← hd]; exact lt_irrefl 0)]
    ring_nf
    exact le_refl _
  · have hlt : e - ob < 0 := hd
    rw [if_neg (not_lt.mpr (le_of_lt hlt)), if_pos hlt, abs_of_neg hlt]
    have h0 : (0:ℚ) ≤ min (1/2) (-(e - ob)) := le_min (by norm_num) (by linarith)
    have h1 : min (1/2) (-(e - ob)) ≤ -(e - ob) := min_le_right _ _
    nlinarith [h0, h1]

theorem yatesChi2_le (t : List (List ℚ))
    (hexp : ∀ i ∈ Finset.range (nRows t), ∀ j ∈ Finset.range (nCols t), 0 < expCell t i j) :
    yatesChi2 t ≤ pearsonChi2 t := by
  unfold yatesChi2 pearsonChi2
  refine Finset.sum_le_sum fun i hi => Finset.sum_le_sum fun j hj => ?_
  exact div_le_div_of_nonneg_right (yCell_sq_le t i j) (hexp i hi j hj).le

theorem cell_nonneg (t : List (List ℚ)) (hneg : anyNegB t = false) (i j : ℕ) :
    0 ≤ cell t i j := by
  unfold anyNegB at hneg
  simp only [List.any_eq_false, Bool.not_eq_true, decide_eq_true_eq] at hneg
  unfold cell
  have hrowprop : ∀ x ∈ t.getD i [], ¬ x < 0 := by
    rcases hlt : t[i]? with _ | row
    · intro x hx
      rw [List.getD_eq_getElem?_getD, hlt] at hx
      simp at hx
    · intro x hx
      rw [List.getD_eq_getElem?_getD, hlt] at hx
      exact hneg row (List.getElem?_mem hlt) x hx
  rcases hj : (t.getD i [])[j]? with _ | x
  · rw [List.getD_eq_getElem?_getD, hj]
    exact le_refl 0
  · rw [List.getD_eq_getElem?_getD, hj]
    exact not_lt.mp (hrowprop x (List.getElem?_mem hj))

theorem rowSum_nonneg (t : List (List ℚ)) (hneg : anyNegB t = false) (i : ℕ) :
    0 ≤ rowSum t i :=
  Finset.sum_nonneg fun j _ => cell_nonneg t hneg i j

theorem colSum_nonneg (t : List (List ℚ)) (hneg : anyNegB t = false) (j : ℕ) :
    0 ≤ colSum t j :=
  Finset.sum_nonneg fun i _ => cell_nonneg t hneg i j

theorem grand_nonneg (t : List (List ℚ)) (hneg : anyNegB t = false) :
    0 ≤ grand t :=
  Finset.sum_nonneg fun i _ => rowSum_nonneg t hneg i

theorem expZero_inv (t : List (List ℚ)) (hz : expZeroB t = false) :
    ∀ i ∈ Finset.range (nRows t), ∀ j ∈ Finset.range (nCols t), expCell t i j ≠ 0 := by
  intro i hi j hj
  unfold expZeroB at hz
  simp only [List.any_eq_false, Bool.not_eq_true, List.mem_range, decide_eq_true_eq] at hz
  exact hz i (Finset.mem_range.mp hi) j (Finset.mem_range.mp hj)

theorem marginals_pos (t : List (List ℚ)) (hneg : anyNegB t = false)
    (hz : expZeroB t = false) (hsz : size2 t ≠ 0) (hgr : grand t ≠ 0) :
    (∀ i ∈ Finset.range (nRows t), 0 < rowSum t i) ∧
    (∀ j ∈ Finset.range (nCols t), 0 < colSum t j) ∧ 0 < grand t := by
  have hR : 0 < nRows t := Nat.pos_of_ne_zero fun h => hsz (by simp [size2, h])
  have hC : 0 < nCols t := Nat.pos_of_ne_zero fun h => hsz (by simp [size2, h])
  have hgpos : 0 < grand t := lt_of_le_of_ne (grand_nonneg t hneg) (Ne.symm hgr)
  refine ⟨?_, ?_, hgpos⟩
  · intro i hi
    have hne := expZero_inv t hz i hi 0 (Finset.mem_range.mpr hC)
    have hr0 : rowSum t i ≠ 0 := by
      intro h
      exact hne (by simp [expCell, h])
    exact lt_of_le_of_ne (rowSum_nonneg t hneg i) (Ne.symm hr0)
  · intro j hj
    have hne := expZero_inv t hz 0 (Finset.mem_range.mpr hR) j hj
    have hc0 : colSum t j ≠ 0 := by
      intro h
      exact hne (by simp [expCell, h])
    exact lt_of_le_of_ne (colSum_nonneg t hneg j) (Ne.symm hc0)


theorem chi2_contingency_ok (pfun : ℚ → ℕ → F) (t : List (List ℚ))
    (chi2 : ℚ) (p : F) (df : ℕ) (exp : List (List ℚ))
    (hok : chi2_contingency pfun t = Except.ok (chi2, p, df, exp))
    (hgr : grand t ≠ 0) :
    df = (nRows t - 1) * (nCols t - 1) ∧
    chi2 ≤ grand t * ((min (nRows t - 1) (nCols t - 1) : ℕ) : ℚ) ∧ 0 < grand t := by
  unfold chi2_contingency at hok
  split_ifs at hok with h1 h2 h3 h4
  · -- dof = 0 branch
    simp only [Except.ok.injEq, Prod.mk.injEq] at hok
    obtain ⟨hchi, -, hdf, -⟩ := hok
    have hneg : anyNegB t = false := Bool.not_eq_true _ |>.mp h1
    have hgpos : 0 < grand t := lt_of_le_of_ne (grand_nonneg t hneg) (Ne.symm hgr)
    refine ⟨?_, ?_, hgpos⟩
    · rw [← hdf]
      exact h4.symm
    · rw [← hchi]
      positivity
  · -- dof nonzero branch
    simp only [Except.ok.injEq, Prod.mk.injEq] at hok
    obtain ⟨hchi, -, hdf, -⟩ := hok
    have hneg : anyNegB t = false := Bool.not_eq_true _ |>.mp h1
    have hz : expZeroB t = false := Bool.not_eq_true _ |>.mp h3
    obtain ⟨hrpos, hcpos, hgpos⟩ := marginals_pos t hneg hz h2 hgr
    have hR : 0 < nRows t := Nat.pos_of_ne_zero fun h => h2 (by simp [size2, h])
    have hC : 0 < nCols t := Nat.pos_of_ne_zero fun h => h2 (by simp [size2, h])
    have hnn : ∀ i ∈ Finset.range (nRows t), ∀ j ∈ Finset.range (nCols t), 0 ≤ cell t i j :=
      fun i _ j _ => cell_nonneg t hneg i j
    have hpearR : pearsonChi2 t ≤ grand t * (nRows t) - grand t :=
      pearson_sum_le (cell t) (nRows t) (nCols t) (rowSum t) (colSum t) (grand t)
        (fun i _ => rfl) (fun j _ => rfl) rfl hnn hrpos hcpos hgpos
    have hpearC : pearsonChi2 t ≤ grand t * (nCols t) - grand t :=
      pearson_sum_le_cols (cell t) (nRows t) (nCols t) (rowSum t) (colSum t) (grand t)
        (fun i _ => rfl) (fun j _ => rfl) rfl hnn hrpos hcpos hgpos
    have hexp : ∀ i ∈ Finset.range (nRows t), ∀ j ∈ Finset.range (nCols t),
        0 < expCell t i j := by
      intro i hi j hj
      exact div_pos (mul_pos (hrpos i hi) (hcpos j hj)) hgpos
    have hstat : chi2Stat t ≤ pearsonChi2 t := by
      unfold chi2Stat
      split_ifs
      · exact yatesChi2_le t hexp
      · exact le_refl _
    have hchis : chi2 ≤ pearsonChi2 t := le_of_eq hchi.symm |>.trans hstat
    have hdfd : df = (nRows t - 1) * (nCols t - 1) := by
      rw [← hdf]
      rfl
    refine ⟨hdfd, ?_, hgpos⟩
    rcases Nat.le_total (nRows t - 1) (nCols t - 1) with h | h
    · rw [Nat.min_eq_left h]
      have hcast : ((nRows t - 1 : ℕ) : ℚ) = (nRows t : ℚ) - 1 := by
        push_cast [Nat.cast_sub hR]
        ring
      rw [hcast]
      calc chi2 ≤ grand t * (nRows t) - grand t := hchis.trans hpearR
        _ = grand t * ((nRows t : ℚ) - 1) := by ring
    · rw [Nat.min_eq_right h]
      have hcast : ((nCols t - 1 : ℕ) : ℚ) = (nCols t : ℚ) - 1 := by
        push_cast [Nat.cast_sub hC]
        ring
      rw [hcast]
      calc chi2 ≤ grand t * (nCols t) - grand t := hchis.trans hpearC
        _ = grand t * ((nCols t : ℚ) - 1) := by ring


/-- C6: whenever the independence computor returns a result, the reported
degrees of freedom equal (rows - 1) times (cols - 1) of the observed table, and
the Cramers V effect size, when present, lies in the closed interval [0, 1]. -/
theorem claim_C6_df_and_effect_size (pfun : ℚ → ℕ → F) (data : Request)
    (res : ContingencyResult)
    (hok : run_chi_square_independence pfun data = Except.ok res) :
    res.df = (res.observedTable.length - 1) * ((res.observedTable.headD []).length - 1) ∧
    ∀ v : ℝ, res.cramersV = some v → 0 ≤ v ∧ v ≤ 1 := by
  unfold run_chi_square_independence at hok
  cases hobs : data.observed with
  | arr1 xs =>
    rw [hobs] at hok
    dsimp only at hok
    split_ifs at hok
  | arr2 t =>
    rw [hobs] at hok
    dsimp only at hok
    split_ifs at hok with hrect hsz hgr
    rcases hcc : chi2_contingency pfun t with e | ⟨chi2, p, df, exp⟩
    · rw [hcc] at hok
      simp at hok
    · rw [hcc] at hok
      simp only [Except.ok.injEq] at hok
      subst hok
      obtain ⟨hdf, hbound, hgpos⟩ := chi2_contingency_ok pfun t chi2 p df exp hcc hgr
      constructor
      · exact hdf
      · intro v hv
        dsimp only [calculate_cramers_v] at hv
        rw [if_neg hgr] at hv
        by_cases hmd : min (t.length - 1) ((t.headD []).length - 1) = 0
        · rw [if_pos hmd] at hv
          have hv0 : v = 0 := (Option.some.inj hv).symm
          rw [hv0]
          exact ⟨le_refl 0, zero_le_one⟩
        · rw [if_neg hmd] at hv
          have hveq : v = Real.sqrt
              ((chi2 / grand t / ((min (t.length - 1) ((t.headD []).length - 1) : ℕ) : ℚ) : ℚ) : ℝ) :=
            (Option.some.inj hv).symm
          have hmpos : (0:ℚ) < ((min (t.length - 1) ((t.headD []).length - 1) : ℕ) : ℚ) := by
            exact_mod_cast Nat.pos_of_ne_zero hmd
          have hq : chi2 / grand t / ((min (t.length - 1) ((t.headD []).length - 1) : ℕ) : ℚ) ≤ 1 := by
            rw [div_le_one hmpos, div_le_iff₀ hgpos]
            calc chi2 ≤ grand t * ((min (nRows t - 1) (nCols t - 1) : ℕ) : ℚ) := hbound
              _ = ((min (t.length - 1) ((t.headD []).length - 1) : ℕ) : ℚ) * grand t := by
                  rw [mul_comm]
                  rfl
          rw [hveq]
          refine ⟨Real.sqrt_nonneg _, Real.sqrt_le_one.mpr ?_⟩
          exact_mod_cast hq



theorem resIndep0_run : run_chi_square_independence pfun0 dataIndep0 = Except.ok resIndep0 := by
  have hflt : F.lt (F.fin 1) (F.fin (1/20)) = false := by
    simp only [F.lt, decide_eq_false_iff_not]
    norm_num
  have hgrand : grand [[(1:ℚ)]] = 1 := by
    simp [grand, rowSum, nRows, nCols, cell, Finset.sum_range_succ]
  have hrow : rowSum [[(1:ℚ)]] 0 = 1 := by
    simp [rowSum, nCols, cell, Finset.sum_range_succ]
  have hcol : colSum [[(1:ℚ)]] 0 = 1 := by
    simp [colSum, nRows, cell, Finset.sum_range_succ]
  have hexp : expCell [[(1:ℚ)]] 0 0 = 1 := by
    simp [expCell, hgrand, hrow, hcol]
  unfold run_chi_square_independence dataIndep0
  norm_num [rectB, nCols, nRows, size2, hgrand, chi2_contingency, anyNegB, expZeroB, hexp,
    dofOf, expTable, (show List.range 1 = [0] from rfl), calculate_cramers_v, safe_float_conversion, pyInt,
    pfun0, anyBelow5, get_interpretation, hflt, contingencyNote, resIndep0, cell]

/-- Witness for C6: the independence computor on the concrete 1x1 table [[1]]
returns a record with df = 0 = (1-1)*(1-1) and effect size 0, inside [0, 1]. -/
theorem claim_C6_witness :
    run_chi_square_independence pfun0 dataIndep0 = Except.ok resIndep0 ∧
    (resIndep0.df =
        (resIndep0.observedTable.length - 1) * ((resIndep0.observedTable.headD []).length - 1) ∧
      ∀ v : ℝ, resIndep0.cramersV = some v → 0 ≤ v ∧ v ≤ 1) :=
  ⟨resIndep0_run, claim_C6_df_and_effect_size pfun0 dataIndep0 resIndep0 resIndep0_run⟩


/-- C3 as amended: whenever the goodness-of-fit derivation succeeds, the expected
counts sum to the observed total for the uniform type, and for the custom type
whenever the listed percentages over the request codes sum to 100; in the custom
case each expected count is total times the listed percentage over 100, with
missing percentages defaulting to 0. -/
theorem claim_C3_expected_counts (observed : List ℚ) (distribution : DistSpec)
    (codes : List String) (e : List ℚ)
    (hok : gof_expected observed distribution codes = Except.ok e)
    (hdist : distribution.dtype = some "uniform" ∨
      (distribution.dtype = some "custom" ∧
        (codes.map fun c => propGet distribution.proportions c).sum = 100)) :
    e.sum = observed.sum ∧
    (distribution.dtype = some "custom" →
      e = codes.map fun c => observed.sum * (propGet distribution.proportions c / 100)) := by
  unfold gof_expected at hok
  split_ifs at hok with h1 h2 h3 h4
  · -- uniform branch
    simp only [Except.ok.injEq] at hok
    subst hok
    constructor
    · rw [List.map_const', List.sum_replicate, nsmul_eq_mul]
      have hlen : (observed.length : ℚ) ≠ 0 := by
        exact_mod_cast h1
      field_simp
    · intro hcustom
      rw [h3] at hcustom
      simp at hcustom
  · -- custom branch
    simp only [Except.ok.injEq] at hok
    subst hok
    rcases hdist with hu | ⟨-, hsum⟩
    · exact absurd hu h3
    refine ⟨?_, fun _ => rfl⟩
    have hfun : (fun c => observed.sum * (propGet distribution.proportions c / 100))
        = fun c => (observed.sum / 100) * propGet distribution.proportions c := by
      funext c
      ring
    rw [hfun, List.sum_map_mul_left, hsum]
    norm_num

/-- Counterexample to C3 as stated: a valid custom request whose single listed
percentage is 50 derives expected counts [1, 0] whose sum 1 differs from the
observed sum 2. -/
theorem claim_C3_counterexample :
    gof_expected [1, 1] distCustom50 ["c1", "c2"] = Except.ok [1, 0] ∧
    ([(1:ℚ), 0].sum ≠ [(1:ℚ), 1].sum) := by
  constructor
  · simp +decide [gof_expected, distCustom50, propGet, List.find?]
    norm_num
  · norm_num

/-- Witness for C3 as amended: a custom distribution whose listed percentages
sum to 100 on observed counts [1, 1, 2] derives expected counts [1, 3], whose sum
equals the observed total. -/
theorem claim_C3_witness :
    gof_expected [1, 1, 2] distCustom100 ["c1", "c2"] = Except.ok [1, 3] ∧
    (distCustom100.dtype = some "uniform" ∨ (distCustom100.dtype = some "custom" ∧
      ((["c1", "c2"].map fun c => propGet distCustom100.proportions c).sum = 100))) ∧
    ([(1:ℚ), 3].sum = [(1:ℚ), 1, 2].sum ∧
      (distCustom100.dtype = some "custom" →
        [(1:ℚ), 3] = ["c1", "c2"].map fun c =>
          [(1:ℚ), 1, 2].sum * (propGet distCustom100.proportions c / 100))) := by
  have hok : gof_expected [1, 1, 2] distCustom100 ["c1", "c2"] = Except.ok [1, 3] := by
    simp +decide [gof_expected, distCustom100, propGet, List.find?]
    norm_num
  have hdist : distCustom100.dtype = some "uniform" ∨ (distCustom100.dtype = some "custom" ∧
      ((["c1", "c2"].map fun c => propGet distCustom100.proportions c).sum = 100)) := by
    right
    constructor
    · rfl
    · simp +decide [distCustom100, propGet, List.find?]
      norm_num
  exact ⟨hok, hdist, claim_C3_expected_counts [1, 1, 2] distCustom100 ["c1", "c2"] [1, 3] hok hdist⟩


/-- C4 as amended: for every 2x2 observed table with a zero row or column
marginal, provided the request supplies at least two row labels and two column
labels, the Fisher computor returns a result whose odds ratio is the absent
marker and whose p-value is exactly 1.0, with the caveat note about the
undefined ratio embedded in the (not-significant) interpretation; the result is
the same for every exact-test procedure, so the procedure is not invoked. -/
theorem claim_C4_degenerate_fisher (fisher_exact : List (List ℚ) → F × F) (data : Request)
    (a b c d : ℚ)
    (hobs : data.observed = NDArr.arr2 [[a, b], [c, d]])
    (hdeg : a + b = 0 ∨ c + d = 0 ∨ a + c = 0 ∨ b + d = 0)
    (hr : 2 ≤ data.rowLabels.length) (hc : 2 ≤ data.colLabels.length) :
    (run_fishers_exact_test fisher_exact data).map
        (fun r => (r.statistic, r.pValue, r.interpretation)) =
      Except.ok (none, some 1,
        nonsigHead ++ "There is no statistical evidence of an association between the variables." ++
          " " ++ fisherZeroNote) := by
  have hflt : F.lt (F.fin 1) (F.fin (1/20)) = false := by
    simp only [F.lt, decide_eq_false_iff_not]
    norm_num
  have hflt2 : F.lt (F.fin 1) (F.fin (20⁻¹ : ℚ)) = false := by
    simp only [F.lt, decide_eq_false_iff_not]
    norm_num
  have hrect : rectB [[a, b], [c, d]] = true := rfl
  have hdegB : (decide (a + b = 0) || decide (c + d = 0) || decide (a + c = 0) ||
      decide (b + d = 0)) = true := by
    rcases hdeg with h | h | h | h <;> simp [h]
  unfold run_fishers_exact_test
  rw [hobs]
  rcases hrl : data.rowLabels with _ | ⟨r0, rtl⟩
  · rw [hrl] at hr
    simp at hr
  rcases hrtl : rtl with _ | ⟨r1, rtl2⟩
  · rw [hrl, hrtl] at hr
    simp at hr
  rcases hcl : data.colLabels with _ | ⟨c0, ctl⟩
  · rw [hcl] at hc
    simp at hc
  rcases hctl : ctl with _ | ⟨c1, ctl2⟩
  · rw [hcl, hctl] at hc
    simp at hc
  simp only [hrect, Bool.true_eq_false, if_false]
  rw [if_pos hdegB]
  simp [Except.map, get_interpretation, hflt, hflt2, safe_float_conversion]


/-- Counterexample to C4 as stated: on the 2x2 table [[0, 0], [1, 1]] with a zero
first-row marginal but no supplied labels, the Fisher computor raises IndexError
instead of returning a result. -/
theorem claim_C4_counterexample :
    run_fishers_exact_test fisher0 dataFisherNoLabels = Except.error PyError.indexError := by
  have hrect : rectB [[(0:ℚ), 0], [1, 1]] = true := rfl
  simp [run_fishers_exact_test, dataFisherNoLabels, hrect]

/-- Witness for C4 as amended: the degenerate table [[0, 0], [1, 1]] with two row
and two column labels yields odds ratio absent, p-value 1, and the caveat in the
not-significant narrative. -/
theorem claim_C4_witness :
    dataFisherDeg.observed = NDArr.arr2 [[0, 0], [1, 1]] ∧
    ((0:ℚ) + 0 = 0 ∨ (1:ℚ) + 1 = 0 ∨ (0:ℚ) + 1 = 0 ∨ (0:ℚ) + 1 = 0) ∧
    2 ≤ dataFisherDeg.rowLabels.length ∧ 2 ≤ dataFisherDeg.colLabels.length ∧
    (run_fishers_exact_test fisher0 dataFisherDeg).map
        (fun r => (r.statistic, r.pValue, r.interpretation)) =
      Except.ok (none, some 1,
        nonsigHead ++ "There is no statistical evidence of an association between the variables." ++
          " " ++ fisherZeroNote) := by
  have hobs : dataFisherDeg.observed = NDArr.arr2 [[0, 0], [1, 1]] := rfl
  have hdeg : (0:ℚ) + 0 = 0 ∨ (1:ℚ) + 1 = 0 ∨ (0:ℚ) + 1 = 0 ∨ (0:ℚ) + 1 = 0 :=
    Or.inl (by norm_num)
  have hr : 2 ≤ dataFisherDeg.rowLabels.length := by simp [dataFisherDeg]
  have hc : 2 ≤ dataFisherDeg.colLabels.length := by simp [dataFisherDeg]
  exact ⟨hobs, hdeg, hr, hc,
    claim_C4_degenerate_fisher fisher0 dataFisherDeg 0 0 1 1 hobs hdeg hr hc⟩


/-- C9: when the statistical procedure yields a NaN p-value, the goodness-of-fit
result record carries the absent marker in pValue while its interpretation is the
not-significant narrative, because NaN < 0.05 is false. -/
theorem claim_C9_nan_pvalue (chisquare : List ℚ → List ℚ → F × F) (data : Request)
    (observed e : List ℚ) (res : GofResult)
    (hobs : data.observed = NDArr.arr1 observed)
    (he : gof_expected observed data.distribution data.codes = Except.ok e)
    (hnan : (chisquare observed e).snd = F.nan)
    (hok : run_chi_square_goodness_of_fit chisquare data = Except.ok res) :
    res.pValue = none ∧
    res.interpretation = nonsigHead ++
      ("There is no statistical evidence that the frequencies of your categories (" ++
        joinQuoted data.categoryLabels ++ ") differ from the expected " ++
        (if data.distribution.dtype = some "uniform" then "uniform" else "specified custom") ++
        " distribution.") ++ " " ++
      (if e.any fun x => decide (x < 5) then
        "Note: At least one category had an expected frequency below 5, which can reduce the accuracy of this test."
      else "") := by
  unfold run_chi_square_goodness_of_fit at hok
  rw [hobs] at hok
  dsimp only at hok
  rw [he] at hok
  dsimp only at hok
  simp only [Except.ok.injEq] at hok
  subst hok
  constructor
  · dsimp only
    rw [hnan]
    rfl
  · dsimp only
    rw [hnan]
    rfl


/-- The expected counts derived for the concrete uniform request dataGof0. -/
theorem gofExpected0 : gof_expected [1, 1] dataGof0.distribution dataGof0.codes =
    Except.ok [1, 1] := by
  simp +decide [gof_expected, dataGof0]


set_option maxRecDepth 4000 in
/-- Evaluation of the goodness-of-fit computor on dataGof0 with the NaN oracle. -/
theorem resGof0_run : run_chi_square_goodness_of_fit chisquareNaN dataGof0 =
    Except.ok resGof0 := by
  unfold run_chi_square_goodness_of_fit
  rw [show dataGof0.observed = NDArr.arr1 [1, 1] from rfl]
  dsimp only
  rw [gofExpected0]
  dsimp only
  simp +decide [dataGof0, chisquareNaN, safe_float_conversion, pyInt, get_interpretation, F.lt,
    resGof0, joinQuoted]


/-- Witness for C9: the concrete uniform request with a NaN-returning procedure
produces pValue = none and the not-significant narrative. -/
theorem claim_C9_witness :
    dataGof0.observed = NDArr.arr1 [1, 1] ∧
    gof_expected [1, 1] dataGof0.distribution dataGof0.codes = Except.ok [1, 1] ∧
    (chisquareNaN [1, 1] [1, 1]).snd = F.nan ∧
    run_chi_square_goodness_of_fit chisquareNaN dataGof0 = Except.ok resGof0 ∧
    (resGof0.pValue = none ∧
      resGof0.interpretation = nonsigHead ++
        ("There is no statistical evidence that the frequencies of your categories (" ++
          joinQuoted dataGof0.categoryLabels ++ ") differ from the expected " ++
          (if dataGof0.distribution.dtype = some "uniform" then "uniform" else "specified custom") ++
          " distribution.") ++ " " ++
        (if [(1:ℚ), 1].any fun x => decide (x < 5) then
          "Note: At least one category had an expected frequency below 5, which can reduce the accuracy of this test."
        else "")) :=
  ⟨rfl, gofExpected0, rfl, resGof0_run,
    claim_C9_nan_pvalue chisquareNaN dataGof0 [1, 1] [1, 1] resGof0 rfl gofExpected0 rfl
      resGof0_run⟩



/-- C8: a chi-square request with an unrecognized subtype yields the
validation-failure response with the invalid-subtype message and status 400
without invoking any computor; a request whose family is not chi-square yields
the unsupported-test-type response with status 400; and the two messages are
distinct for all subtype and family values. -/
theorem claim_C8_dispatcher_errors :
    (∀ (γ : Type) (cGof cInd cHom cFis : Request → Except PyError γ) (data : Request)
      (st : String),
      data.testType = some "chi-square" → data.subtype = some st →
      st ≠ "goodness-of-fit" → st ≠ "independence" → st ≠ "homogeneity" →
      st ≠ "fishers-exact" →
      handle_test_request cGof cInd cHom cFis (some data) =
        PyResponse.err ("Invalid Chi-Square subtype: " ++ st) 400) ∧
    (∀ (γ : Type) (cGof cInd cHom cFis : Request → Except PyError γ) (data : Request),
      data.testType ≠ some "chi-square" →
      handle_test_request cGof cInd cHom cFis (some data) =
        PyResponse.err ("Unsupported test type: " ++ optStr data.testType) 400) ∧
    (∀ s t : String, "Invalid Chi-Square subtype: " ++ s ≠ "Unsupported test type: " ++ t) := by
  refine ⟨?_, ?_, ?_⟩
  · intro γ cGof cInd cHom cFis data st ht hs h1 h2 h3 h4
    unfold handle_test_request
    dsimp only
    rw [ht, hs]
    rw [if_pos rfl]
    rw [if_neg (by simp [h1]), if_neg (by simp [h2]), if_neg (by simp [h3]),
      if_neg (by simp [h4])]
    rfl
  · intro γ cGof cInd cHom cFis data ht
    unfold handle_test_request
    dsimp only
    rw [if_neg ht]
  · intro s t h
    have hI : ("Invalid Chi-Square subtype: " ++ s).data.head? = some (Char.ofNat 73) := by
      rw [String.data_append]
      rfl
    have hU : ("Unsupported test type: " ++ t).data.head? = some (Char.ofNat 85) := by
      rw [String.data_append]
      rfl
    rw [h, hU] at hI
    simp at hI

/-- Witness for C8: concrete bogus-subtype and non-chi-square requests produce
the two distinct 400 responses. -/
theorem claim_C8_witness :
    (dataBadSubtype.testType = some "chi-square" ∧ dataBadSubtype.subtype = some "bogus" ∧
      handle_test_request cUnit cUnit cUnit cUnit (some dataBadSubtype) =
        PyResponse.err ("Invalid Chi-Square subtype: " ++ "bogus") 400) ∧
    (dataBadType.testType ≠ some "chi-square" ∧
      handle_test_request cUnit cUnit cUnit cUnit (some dataBadType) =
        PyResponse.err ("Unsupported test type: " ++ optStr dataBadType.testType) 400) ∧
    ("Invalid Chi-Square subtype: " ++ "bogus" ≠ "Unsupported test type: " ++ "anova") := by
  refine ⟨⟨rfl, rfl, ?_⟩, ⟨?_, ?_⟩, claim_C8_dispatcher_errors.2.2 "bogus" "anova"⟩
  · exact claim_C8_dispatcher_errors.1 Unit cUnit cUnit cUnit cUnit dataBadSubtype "bogus"
      rfl rfl (by decide) (by decide) (by decide) (by decide)
  · decide
  · exact claim_C8_dispatcher_errors.2.1 Unit cUnit cUnit cUnit cUnit dataBadType (by decide)

/-- C10: on any 2x2 table accompanied by fewer than two row labels or fewer than
two column labels, the Fisher computor raises IndexError (for every exact-test
procedure and in both the degenerate and non-degenerate branches), and the
request handler reports it as a 500-class internal failure, not a validation
failure. -/
theorem claim_C10_fisher_label_indexerror (fisher_exact : List (List ℚ) → F × F)
    (cGof cInd cHom : Request → Except PyError FisherResult) (data : Request)
    (a b c d : ℚ)
    (hobs : data.observed = NDArr.arr2 [[a, b], [c, d]])
    (hlab : data.rowLabels.length < 2 ∨ data.colLabels.length < 2)
    (ht : data.testType = some "chi-square")
    (hs : data.subtype = some "fishers-exact") :
    run_fishers_exact_test fisher_exact data = Except.error PyError.indexError ∧
    handle_test_request cGof cInd cHom (run_fishers_exact_test fisher_exact) (some data) =
      PyResponse.err ("An internal error occurred: list index out of range") 500 := by
  have hrect : rectB [[a, b], [c, d]] = true := rfl
  have hrun : run_fishers_exact_test fisher_exact data = Except.error PyError.indexError := by
    unfold run_fishers_exact_test
    rw [hobs]
    simp only [hrect, Bool.true_eq_false, if_false]
    rcases hrl : data.rowLabels with _ | ⟨r0, _ | ⟨r1, rtl⟩⟩ <;>
      rcases hcl : data.colLabels with _ | ⟨c0, _ | ⟨c1, ctl⟩⟩ <;>
        first
          | rfl
          | (exfalso
             rw [hrl, hcl] at hlab
             rcases hlab with hl | hl <;>
               (simp only [List.length_cons] at hl
                omega))
  refine ⟨hrun, ?_⟩
  unfold handle_test_request
  dsimp only
  rw [ht, hs, if_pos rfl]
  rw [if_neg (by decide), if_neg (by decide), if_neg (by decide), if_pos rfl]
  rw [hrun]
  rfl

/-- Witness for C10: a non-degenerate 2x2 table with a single row label makes
the Fisher computor raise IndexError and the handler answer 500. -/
theorem claim_C10_witness :
    dataFisherShort.observed = NDArr.arr2 [[1, 2], [3, 4]] ∧
    (dataFisherShort.rowLabels.length < 2 ∨ dataFisherShort.colLabels.length < 2) ∧
    dataFisherShort.testType = some "chi-square" ∧
    dataFisherShort.subtype = some "fishers-exact" ∧
    (run_fishers_exact_test fisher0 dataFisherShort = Except.error PyError.indexError ∧
      handle_test_request cFisherUnused cFisherUnused cFisherUnused
          (run_fishers_exact_test fisher0) (some dataFisherShort) =
        PyResponse.err ("An internal error occurred: list index out of range") 500) :=
  ⟨rfl, Or.inl (by decide), rfl, rfl,
    claim_C10_fisher_label_indexerror fisher0 cFisherUnused cFisherUnused cFisherUnused
      dataFisherShort 1 2 3 4 rfl (Or.inl (by decide)) rfl rfl⟩
